import Mathlib

/-! E1000 transmit driver (`my_e1000_driver.c`): shallow embedding.

The driver is embedded as pure state-passing functions.

* Machine words are natural numbers; every `(uint32_t)` / `(uint64_t)` cast of the
  source is an explicit reduction modulo `2^32` / `2^64`.
* The register window is a store indexed by register name, together with a ghost
  trace of every access (`get_register` / `set_register`) and of every function entry.
* The globals `bar0`, `tx_ring`, `tx_buffer` are fields of `State`; a `NULL` pointer is
  `none` (resp. `0` for `bar0`).  A store through a `NULL` pointer ends the run (`Run.oops`).
* Everything the kernel decides (return value of `register_chrdev`, of `ioremap`, of the
  two `kmalloc` calls and of `virt_to_phys`) is an input, `Env`.
* The constants of the header `e1k_utils.h`, which is not part of the sources, are the
  parameter `Consts`.
-/

namespace E1000

/-! ## Machine integers -/

/-- The cast `(uint32_t) n`. -/
def u32 (n : Nat) : Nat := n % 4294967296

/-- The cast `(uint64_t) n`. -/
def u64 (n : Nat) : Nat := n % 18446744073709551616

/-- The cast `(uint32_t) z` of a signed C expression. -/
def u32i (z : Int) : Nat := (z % 4294967296).toNat

/-- Line 10: `#define NB_MAX_DESC 256`. -/
def NB_MAX_DESC : Nat := 256

/-- The Linux errno `EBUSY` (from the kernel headers). -/
def EBUSY : Int := 16

/-! ## Header constants -/

/-- The constants of `e1k_utils.h` used by the driver.  The header is absent from the
sources, so the values are parameters of the embedding. -/
structure Consts where
  CTRL_RST : Nat
  CTRL_ASDE : Nat
  CTRL_SLU : Nat
  CTRL_FD : Nat
  TCTL_EN : Nat
  TCTL_PSP : Nat
  TCTL_RTLC : Nat
  DESC_DONE : Nat
  DESC_CTX : Nat
  DESC_DATA : Nat
  TSE : Nat
  TCP_IP : Nat
  REPORT_STATUS : Nat
  EOP : Nat
  PAYLOAD_LEN : Nat
  E1K_MAX_TX_PKT_SIZE : Nat
  DESC_SIZE : Nat

/-- Modelled from the spec: the mask `TCTL_COLD` of `e1k_utils.h` (absent), given in §6 as
`0x3FF<<12`. -/
def TCTL_COLD : Nat := 0x3FF <<< 12

/-- Modelled from the spec: the mask `TCTL_CT` of `e1k_utils.h` (absent), given in §6 as
`0xFF<<8`. -/
def TCTL_CT : Nat := 0xFF <<< 8

/-- Modelled from the spec: the register names of `e1k_utils.h` (absent), §6 register map.
Each name stands for its own byte offset in the mapped window. -/
inductive Reg where
  | CTRL
  | TCTL
  | TDBAL
  | TDBAH
  | TDLEN
  | TDH
  | TDT
  deriving DecidableEq, Repr

/-! ## Descriptors -/

/-- Modelled from the spec: `struct e1000_desc` of `e1k_utils.h` (absent), §6 descriptor
binary layout.  A 16-byte slot is four little-endian 32-bit words shared by the two
members of the union:

* `ctxt`: `w0 = lower_setup.ip_config`, `w1 = upper_setup.tcp_config`,
  `w2 = cmd_and_length`, `w3 = tcp_seg_setup.data`;
* `data`: `w0, w1 = buffer_addr` (low, high half), `w2 = lower.data`, `w3 = upper.data`. -/
structure Desc where
  w0 : Nat
  w1 : Nat
  w2 : Nat
  w3 : Nat
  deriving DecidableEq, Repr

/-- Store `ctxt.lower_setup.ip_config = v`. -/
def Desc.set_ip_config (d : Desc) (v : Nat) : Desc := { d with w0 := u32 v }

/-- Store `ctxt.upper_setup.tcp_config = v`. -/
def Desc.set_tcp_config (d : Desc) (v : Nat) : Desc := { d with w1 := u32 v }

/-- Store `ctxt.cmd_and_length = v`. -/
def Desc.set_cmd_and_length (d : Desc) (v : Nat) : Desc := { d with w2 := u32 v }

/-- Store `ctxt.tcp_seg_setup.data = v`. -/
def Desc.set_tcp_seg_setup (d : Desc) (v : Nat) : Desc := { d with w3 := u32 v }

/-- Store `data.buffer_addr = a` (64 bits, little endian). -/
def Desc.set_buffer_addr (d : Desc) (a : Nat) : Desc :=
  { d with w0 := u64 a % 4294967296, w1 := u64 a / 4294967296 }

/-- Store `data.lower.data = v`; it is the same word as `ctxt.cmd_and_length`. -/
def Desc.set_lower (d : Desc) (v : Nat) : Desc := { d with w2 := u32 v }

/-- Store `data.upper.data = v`. -/
def Desc.set_upper (d : Desc) (v : Nat) : Desc := { d with w3 := u32 v }

/-- Read `ctxt.cmd_and_length`. -/
def Desc.cmd_and_length (d : Desc) : Nat := d.w2

/-- Read `data.lower.data`. -/
def Desc.lower (d : Desc) : Nat := d.w2

/-- Read `data.buffer_addr`. -/
def Desc.buffer_addr (d : Desc) : Nat := d.w1 * 4294967296 + d.w0

/-- The descriptor ring behind `tx_ring`: slot index to slot contents. -/
abbrev Ring := Nat → Desc

/-- The bytes behind `tx_buffer`. -/
abbrev Buffer := Nat → Nat

/-- The assignment `r[i].field = v` for one field setter `f`. -/
def Ring.store (r : Ring) (i : Nat) (f : Desc → Desc) : Ring :=
  fun j => if j = i then f (r i) else r j

/-! ## State, environment, trace -/

/-- The functions whose entry is recorded in the trace. -/
inductive Func where
  | map_mmio
  | e1k_configure
  | send_data
  deriving DecidableEq, Repr

/-- One entry of the ghost trace. -/
inductive Event where
  | read (r : Reg)
  | write (r : Reg) (v : Nat)
  | enter (f : Func)
  deriving DecidableEq, Repr

/-- What the kernel answers during `init_module`. -/
structure Env where
  /-- return value of `register_chrdev` -/
  register_chrdev : Int
  /-- return value of `ioremap`, `0` is `NULL` -/
  ioremap : Nat
  /-- first `kmalloc`: `none` is `NULL`, `some r` is fresh memory with contents `r` -/
  kmalloc_ring : Option Ring
  /-- second `kmalloc` -/
  kmalloc_buffer : Option Buffer
  /-- value of `virt_to_phys(tx_ring)` -/
  ring_phys : Nat
  /-- value of `virt_to_phys(tx_buffer)` -/
  buffer_phys : Nat

/-- The device registers and the driver globals (lines 22-23), with the ghost trace. -/
structure State where
  regs : Reg → Nat
  bar0 : Nat
  tx_ring : Option Ring
  tx_buffer : Option Buffer
  trace : List Event

/-- The state at module load: the globals are zero-initialised, nothing has happened. -/
def State.boot (regs : Reg → Nat) : State :=
  { regs := regs, bar0 := 0, tx_ring := none, tx_buffer := none, trace := [] }

/-- Result of running code that may store through a `NULL` pointer. -/
inductive Run (α : Type) where
  | done (ret : α) (s : State)
  | oops (s : State)

/-- Modelled from the spec: `get_register` of `e1k_utils.h` (absent), §4.1 `read(offset) -> u32`. -/
def get_register (s : State) (r : Reg) : Nat × State :=
  (u32 (s.regs r), { s with trace := s.trace ++ [Event.read r] })

/-- Modelled from the spec: `set_register` of `e1k_utils.h` (absent), §4.1 `write(offset, value)`. -/
def set_register (s : State) (r : Reg) (v : Nat) : State :=
  { s with regs := fun q => if q = r then u32 v else s.regs q,
           trace := s.trace ++ [Event.write r (u32 v)] }

/-- Record a function entry in the trace. -/
def State.enter (s : State) (f : Func) : State :=
  { s with trace := s.trace ++ [Event.enter f] }

/-! ## The control file (lines 27-48) -/

/-- `device_open`: the new value of `Device_Open` and the return value. -/
def device_open (Device_Open : Int) : Int × Int :=
  if Device_Open ≠ 0 then (Device_Open, -EBUSY)
  else (Device_Open + 1, 0)

/-- `device_release`: the new value of `Device_Open` and the return value. -/
def device_release (Device_Open : Int) : Int × Int :=
  (Device_Open - 1, 0)

/-! ## Configuration (lines 99-155) -/

/-- `map_mmio`: the mapped address, `0` when `ioremap` failed. -/
def map_mmio (env : Env) (s : State) : Nat × State :=
  let s := s.enter Func.map_mmio
  let virt_addr := env.ioremap
  if virt_addr = 0 then (0, s) else (virt_addr, s)

/-- Lines 133-135: `for (i = 0; i < NB_MAX_DESC; ++i) tx_ring[i].ctxt.cmd_and_length = DESC_DONE;`. -/
def ring_setup (c : Consts) (r : Ring) : Ring :=
  (List.range NB_MAX_DESC).foldl
    (fun r i => r.store i (fun d => d.set_cmd_and_length c.DESC_DONE)) r

/-- `e1k_configure`. -/
def e1k_configure (c : Consts) (env : Env) (s : State) : State :=
  let s := s.enter Func.e1k_configure
  let (v, s) := get_register s Reg.CTRL
  let ctrl := u32 (v ||| c.CTRL_RST)
  let s := set_register s Reg.CTRL ctrl
  let (v, s) := get_register s Reg.CTRL
  let ctrl := u32 (v ||| c.CTRL_ASDE ||| c.CTRL_SLU ||| c.CTRL_FD)
  let s := set_register s Reg.CTRL ctrl
  let s := { s with tx_ring := env.kmalloc_ring }
  match s.tx_ring with
  | none => s
  | some r =>
    let s := { s with tx_ring := some (ring_setup c r) }
    let s := { s with tx_buffer := env.kmalloc_buffer }
    match s.tx_buffer with
    | none => s
    | some _ =>
      let tdba := u64 env.ring_phys
      let s := set_register s Reg.TDBAL (u32 (tdba &&& 0xFFFFFFFF))
      let s := set_register s Reg.TDBAH (u32 (tdba >>> 32))
      let tdlen := u32 (c.DESC_SIZE * NB_MAX_DESC)
      let s := set_register s Reg.TDLEN tdlen
      let s := set_register s Reg.TDT 0
      let s := set_register s Reg.TDH 0
      let (v, s) := get_register s Reg.TCTL
      let tctl := u32 (v ||| c.TCTL_EN ||| c.TCTL_PSP ||| ((0x40 <<< 12) &&& TCTL_COLD)
                    ||| ((0x10 <<< 8) &&& TCTL_CT) ||| c.TCTL_RTLC)
      set_register s Reg.TCTL tctl

/-! ## Submission (lines 157-199) -/

/-- Lines 169-171: `for (i = 0; i < PAYLOAD_LEN; ++i) tx_buffer[i] = 0x41;`.  The first
iteration already stores through `tx_buffer`, so a `NULL` buffer stops the run unless the
loop body is never entered. -/
def fill_payload (c : Consts) (s : State) : Run Unit :=
  if c.PAYLOAD_LEN = 0 then Run.done () s
  else
    match s.tx_buffer with
    | none => Run.oops s
    | some b =>
      let b := (List.range c.PAYLOAD_LEN).foldl (fun b i => fun j => if j = i then 0x41 else b j) b
      Run.done () { s with tx_buffer := some b }

/-- Lines 175-195: the descriptor stores, in source order.  `ctxt_1 .. data_5` point at
slots `0 .. 4`. -/
def fill_descriptors (c : Consts) (physical_address : Nat) (r : Ring) : Ring :=
  let ctxt_1 := 0
  let data_2 := 1
  let data_3 := 2
  let data_4 := 3
  let data_5 := 4
  let r := r.store ctxt_1 (fun d => d.set_ip_config 0)
  let r := r.store ctxt_1 (fun d => d.set_tcp_config 0)
  let r := r.store ctxt_1 (fun d => d.set_cmd_and_length
    (c.TCP_IP ||| c.REPORT_STATUS ||| c.DESC_CTX ||| c.TSE ||| c.PAYLOAD_LEN))
  let r := r.store ctxt_1 (fun d => d.set_tcp_seg_setup
    (u32i ((c.E1K_MAX_TX_PKT_SIZE : Int) - 4 - 1)))
  let r := r.store data_2 (fun d => d.set_buffer_addr physical_address)
  let r := r.store data_2 (fun d => d.set_lower
    (c.REPORT_STATUS ||| c.DESC_DATA ||| 0x10 ||| c.TSE))
  let r := r.store data_2 (fun d => d.set_lower
    (c.REPORT_STATUS ||| c.DESC_DATA ||| u32i ((c.E1K_MAX_TX_PKT_SIZE : Int) - 4 - 2) ||| c.TSE))
  let r := r.store data_2 (fun d => d.set_upper 0)
  let r := r.store data_3 (fun d => d.set_buffer_addr physical_address)
  let r := r.store data_2 (fun d => d.set_lower (c.REPORT_STATUS ||| c.DESC_DATA ||| 2))
  let r := r.store data_3 (fun d => d.set_upper 0)
  let r := r.store data_4 (fun d => d.set_buffer_addr physical_address)
  let r := r.store data_2 (fun d => d.set_lower
    (c.REPORT_STATUS ||| c.DESC_DATA ||| 0x1000 ||| c.TSE))
  let r := r.store data_4 (fun d => d.set_upper 0)
  let r := r.store data_5 (fun d => d.set_buffer_addr physical_address)
  let r := r.store data_5 (fun d => d.set_lower
    (c.EOP ||| c.REPORT_STATUS ||| c.DESC_DATA ||| c.TSE))
  let r := r.store data_5 (fun d => d.set_upper 0)
  r

/-- `send_data`. -/
def send_data (c : Consts) (env : Env) (s : State) : Run Unit :=
  let s := s.enter Func.send_data
  match fill_payload c s with
  | Run.oops s => Run.oops s
  | Run.done _ s =>
    let physical_address := u64 env.buffer_phys
    match s.tx_ring with
    | none => Run.oops s
    | some r =>
      let s := { s with tx_ring := some (fill_descriptors c physical_address r) }
      let (v, s) := get_register s Reg.TDT
      let tdt := u32 (v + 5) &&& 0xFFFF
      Run.done () (set_register s Reg.TDT tdt)

/-! ## Module initialisation (lines 62-91) -/

/-- `init_module`, from the state at module load. -/
def init_module (c : Consts) (env : Env) (s : State) : Run Int :=
  let ret_val := env.register_chrdev
  if ret_val < 0 then Run.done ret_val s
  else
    let (p, s) := map_mmio env s
    let s := { s with bar0 := p }
    if s.bar0 = 0 then Run.done (-1) s
    else
      let s := e1k_configure c env s
      match send_data c env s with
      | Run.oops s => Run.oops s
      | Run.done _ s => Run.done 0 s

/-! ## Sequences of operations on the control file -/

/-- One call on the control file. -/
inductive FileOp where
  | do_open
  | do_release
  deriving DecidableEq, Repr

/-- Run one call: new value of `Device_Open` and return value. -/
def file_step (n : Int) : FileOp → Int × Int
  | FileOp.do_open => device_open n
  | FileOp.do_release => device_release n

/-- The value of `Device_Open` after a sequence of calls. -/
def file_run (n : Int) : List FileOp → Int
  | [] => n
  | op :: ops => file_run (file_step n op).1 ops

/-- Every release in the sequence follows a successful open that has not been released
yet: `pending` counts the opens that returned `0` and are not yet released. -/
def releases_follow_opens (n : Int) (pending : Nat) : List FileOp → Prop
  | [] => True
  | FileOp.do_open :: ops =>
      releases_follow_opens (device_open n).1
        (if (device_open n).2 = 0 then pending + 1 else pending) ops
  | FileOp.do_release :: ops =>
      0 < pending ∧ releases_follow_opens (device_release n).1 (pending - 1) ops

/-! ## Vocabulary of the statements -/

/-- Every bit of `flag` is set in the word `w`. -/
def carries (w flag : Nat) : Prop := w &&& flag = flag

instance (w flag : Nat) : Decidable (carries w flag) := by
  unfold carries; infer_instance

/-- The collision-threshold field of a TCTL value (mask `TCTL_CT`, bits 8..15). -/
def tctl_ct (w : Nat) : Nat := (w &&& TCTL_CT) >>> 8

/-- The collision-distance field of a TCTL value (mask `TCTL_COLD`, bits 12..21). -/
def tctl_cold (w : Nat) : Nat := (w &&& TCTL_COLD) >>> 12

/-- The state a run ended in. -/
def Run.state {α : Type} : Run α → State
  | Run.done _ s => s
  | Run.oops s => s

/-- The values written to register `r`, in order, according to a trace. -/
def written (r : Reg) : List Event → List Nat
  | [] => []
  | Event.write q v :: t => if q = r then v :: written r t else written r t
  | _ :: t => written r t

/-- Value of CTRL after the two read-modify-write steps of lines 120-124. -/
def ctrl_value (c : Consts) (v : Nat) : Nat :=
  u32 (u32 (u32 v ||| c.CTRL_RST) ||| c.CTRL_ASDE ||| c.CTRL_SLU ||| c.CTRL_FD)

/-- Value written to TCTL by line 153 when `v` is the register's content. -/
def tctl_value (c : Consts) (v : Nat) : Nat :=
  u32 (u32 v ||| c.TCTL_EN ||| c.TCTL_PSP ||| ((0x40 <<< 12) &&& TCTL_COLD)
        ||| ((0x10 <<< 8) &&& TCTL_CT) ||| c.TCTL_RTLC)

/-- The trace of lines 120-124. -/
def ctrl_events (c : Consts) (s : State) : List Event :=
  [Event.enter Func.e1k_configure, Event.read Reg.CTRL,
   Event.write Reg.CTRL (u32 (u32 (s.regs Reg.CTRL) ||| c.CTRL_RST)),
   Event.read Reg.CTRL, Event.write Reg.CTRL (ctrl_value c (s.regs Reg.CTRL))]

/-- The state `e1k_configure` reaches when both allocations succeed. -/
def configure_post (c : Consts) (env : Env) (s : State) (r : Ring) (b : Buffer) : State :=
  { regs := fun q =>
      if q = Reg.TCTL then tctl_value c (s.regs Reg.TCTL)
      else if q = Reg.TDH then 0
      else if q = Reg.TDT then 0
      else if q = Reg.TDLEN then u32 (c.DESC_SIZE * NB_MAX_DESC)
      else if q = Reg.TDBAH then u64 env.ring_phys / 4294967296
      else if q = Reg.TDBAL then u64 env.ring_phys % 4294967296
      else if q = Reg.CTRL then ctrl_value c (s.regs Reg.CTRL)
      else s.regs q,
    bar0 := s.bar0,
    tx_ring := some (ring_setup c r),
    tx_buffer := some b,
    trace := s.trace ++ ctrl_events c s ++
      [Event.write Reg.TDBAL (u64 env.ring_phys % 4294967296),
       Event.write Reg.TDBAH (u64 env.ring_phys / 4294967296),
       Event.write Reg.TDLEN (u32 (c.DESC_SIZE * NB_MAX_DESC)),
       Event.write Reg.TDT 0, Event.write Reg.TDH 0, Event.read Reg.TCTL,
       Event.write Reg.TCTL (tctl_value c (s.regs Reg.TCTL))] }

/-- The state `e1k_configure` reaches when an allocation fails: only CTRL was touched. -/
def configure_abort (c : Consts) (s : State) (ring : Option Ring) (buf : Option Buffer) : State :=
  { regs := fun q => if q = Reg.CTRL then ctrl_value c (s.regs Reg.CTRL) else s.regs q,
    bar0 := s.bar0,
    tx_ring := ring,
    tx_buffer := buf,
    trace := s.trace ++ ctrl_events c s }

/-- The state `send_data` reaches when both `tx_ring` and `tx_buffer` are allocated. -/
def send_data_post (c : Consts) (env : Env) (s : State) (r : Ring) (b : Buffer) : State :=
  { regs := fun q => if q = Reg.TDT then (u32 (s.regs Reg.TDT) + 5) % 65536 else s.regs q,
    bar0 := s.bar0,
    tx_ring := some (fill_descriptors c (u64 env.buffer_phys) r),
    tx_buffer := some (if c.PAYLOAD_LEN = 0 then b else
      (List.range c.PAYLOAD_LEN).foldl (fun b i => fun j => if j = i then 0x41 else b j) b),
    trace := s.trace ++ [Event.enter Func.send_data, Event.read Reg.TDT,
      Event.write Reg.TDT ((u32 (s.regs Reg.TDT) + 5) % 65536)] }

/-- A sample assignment of the header constants, with 16-byte descriptors and a 16-byte
payload. -/
def sample_consts : Consts :=
  { CTRL_RST := 0x4000000, CTRL_ASDE := 0x20, CTRL_SLU := 0x40, CTRL_FD := 0x1,
    TCTL_EN := 0x2, TCTL_PSP := 0x8, TCTL_RTLC := 0x1000000,
    DESC_DONE := 0x1, DESC_CTX := 0x20000000, DESC_DATA := 0x20100000, TSE := 0x4000000,
    TCP_IP := 0x2000000, REPORT_STATUS := 0x8000000, EOP := 0x1000000,
    PAYLOAD_LEN := 0x10, E1K_MAX_TX_PKT_SIZE := 16288, DESC_SIZE := 16 }

/-- A ring of freshly allocated memory: every word is `0xDEADBEEF`. -/
def sample_ring : Ring := fun _ => { w0 := 0xDEADBEEF, w1 := 0xDEADBEEF, w2 := 0xDEADBEEF, w3 := 0xDEADBEEF }

/-- A freshly allocated payload buffer. -/
def sample_buffer : Buffer := fun _ => 0

/-- An environment in which every kernel service succeeds. -/
def sample_env : Env :=
  { register_chrdev := 0, ioremap := 0xFFFFC90000000000,
    kmalloc_ring := some sample_ring, kmalloc_buffer := some sample_buffer,
    ring_phys := 0x12345678, buffer_phys := 0x3F000 }

/-- The environment in which the payload buffer cannot be allocated. -/
def no_buffer_env : Env := { sample_env with kmalloc_buffer := none }

/-- The environment in which the register window cannot be mapped. -/
def no_mmio_env : Env := { sample_env with ioremap := 0 }

/-- A state with both globals allocated and the tail register reading `t`. -/
def sample_state (t : Nat) : State :=
  { regs := fun q => if q = Reg.TDT then t else 0, bar0 := 0xFFFFC90000000000,
    tx_ring := some sample_ring, tx_buffer := some sample_buffer, trace := [] }

/-! ## Basic facts -/

theorem u32_lt (n : Nat) : u32 n < 4294967296 := by
  unfold u32; omega

theorem u32_of_lt {n : Nat} (h : n < 4294967296) : u32 n = n := by
  unfold u32; omega

theorem u32_u32 (n : Nat) : u32 (u32 n) = u32 n := by
  unfold u32; omega

theorem u32_zero : u32 0 = 0 := rfl

theorem u32_eq_and (n : Nat) : u32 n = n &&& 4294967295 :=
  (Nat.and_pow_two_sub_one_eq_mod n 32).symm

theorem and_ffff (n : Nat) : n &&& 0xFFFF = n % 65536 :=
  Nat.and_pow_two_sub_one_eq_mod n 16

theorem u32_and (x e : Nat) : u32 x &&& e = u32 (x &&& e) := by
  rw [u32_eq_and, u32_eq_and, Nat.and_assoc, Nat.and_assoc, Nat.and_comm e]

theorem or_and_right (x y e : Nat) : (x ||| y) &&& e = (x &&& e) ||| (y &&& e) := by
  apply Nat.eq_of_testBit_eq
  intro i
  simp only [Nat.testBit_or, Nat.testBit_and]
  cases x.testBit i <;> cases y.testBit i <;> cases e.testBit i <;> rfl

theorem carries_self (f : Nat) : carries f f := Nat.and_self f

theorem carries_or_left {a f : Nat} (b : Nat) (h : carries a f) : carries (a ||| b) f := by
  unfold carries at *
  apply Nat.eq_of_testBit_eq
  intro i
  have hi := congrArg (fun n => n.testBit i) h
  simp only [Nat.testBit_and] at hi
  simp only [Nat.testBit_or, Nat.testBit_and]
  revert hi
  cases a.testBit i <;> cases b.testBit i <;> cases f.testBit i <;> simp

theorem carries_or_right {b f : Nat} (a : Nat) (h : carries b f) : carries (a ||| b) f := by
  unfold carries at *
  apply Nat.eq_of_testBit_eq
  intro i
  have hi := congrArg (fun n => n.testBit i) h
  simp only [Nat.testBit_and] at hi
  simp only [Nat.testBit_or, Nat.testBit_and]
  revert hi
  cases a.testBit i <;> cases b.testBit i <;> cases f.testBit i <;> simp

theorem carries_u32 {w f : Nat} (hf : f < 4294967296) (h : carries w f) : carries (u32 w) f := by
  unfold carries at *
  rw [u32_and, h, u32_of_lt hf]

theorem tail_value (v : Nat) : u32 (u32 (v + 5) &&& 0xFFFF) = (v + 5) % 65536 := by
  rw [and_ffff]; unfold u32; omega

theorem tdbal_value (a : Nat) : u32 (u64 a &&& 0xFFFFFFFF) = u64 a % 4294967296 := by
  have h : u64 a &&& 0xFFFFFFFF = u64 a % 4294967296 := Nat.and_pow_two_sub_one_eq_mod _ 32
  rw [h]; unfold u32; omega

theorem tdbah_value (a : Nat) : u32 (u64 a >>> 32) = u64 a / 4294967296 := by
  rw [Nat.shiftRight_eq_div_pow]; unfold u32 u64; norm_num; omega

theorem u32_lo (a : Nat) : u32 (u64 a % 4294967296) = u64 a % 4294967296 := by
  unfold u32; omega

theorem u32_hi (a : Nat) : u32 (u64 a / 4294967296) = u64 a / 4294967296 := by
  unfold u32 u64; omega

/-! ## What the two driver functions compute -/

theorem send_data_eq (c : Consts) (env : Env) (s : State) (r : Ring) (b : Buffer)
    (hr : s.tx_ring = some r) (hb : s.tx_buffer = some b) :
    send_data c env s = Run.done () (send_data_post c env s r b) := by
  by_cases hp : c.PAYLOAD_LEN = 0
  · simp [send_data, fill_payload, State.enter, hp, hr, hb, get_register, set_register,
      send_data_post, tail_value]
  · simp [send_data, fill_payload, State.enter, hp, hr, hb, get_register, set_register,
      send_data_post, tail_value]

theorem e1k_configure_eq (c : Consts) (env : Env) (s : State) (r : Ring) (b : Buffer)
    (hr : env.kmalloc_ring = some r) (hb : env.kmalloc_buffer = some b) :
    e1k_configure c env s = configure_post c env s r b := by
  have h1 := tdbal_value env.ring_phys
  have h2 := tdbah_value env.ring_phys
  simp only [Nat.reduceShiftLeft] at h1 h2
  simp [e1k_configure, State.enter, get_register, set_register, hr, hb, configure_post,
    ctrl_events, ctrl_value, tctl_value, u32_u32, h1, h2, u32_zero, u32_lo, u32_hi]
  funext q
  cases q <;> simp

theorem e1k_configure_no_ring (c : Consts) (env : Env) (s : State)
    (hr : env.kmalloc_ring = none) :
    e1k_configure c env s = configure_abort c s none s.tx_buffer := by
  simp [e1k_configure, State.enter, get_register, set_register, hr, configure_abort,
    ctrl_events, ctrl_value, u32_u32]
  funext q
  cases q <;> simp

theorem e1k_configure_no_buffer (c : Consts) (env : Env) (s : State) (r : Ring)
    (hr : env.kmalloc_ring = some r) (hb : env.kmalloc_buffer = none) :
    e1k_configure c env s = configure_abort c s (some (ring_setup c r)) none := by
  simp [e1k_configure, State.enter, get_register, set_register, hr, hb, configure_abort,
    ctrl_events, ctrl_value, u32_u32]
  funext q
  cases q <;> simp

/-! ## The ring after set-up and after submission -/

theorem ring_setup_loop (c : Consts) (n : Nat) (r : Ring) (i : Nat) :
    (List.range n).foldl (fun r i => r.store i (fun d => d.set_cmd_and_length c.DESC_DONE)) r i
      = if i < n then (r i).set_cmd_and_length c.DESC_DONE else r i := by
  induction n with
  | zero => simp
  | succ n ih =>
    rw [List.range_succ, List.foldl_append]
    simp only [List.foldl_cons, List.foldl_nil, Ring.store]
    by_cases h : i = n
    · subst h
      simp [ih]
    · have h1 : (i < n + 1) = (i < n) := by
        apply propext; constructor <;> intro h2 <;> omega
      simp [h, ih, h1]

theorem ring_setup_apply (c : Consts) (r : Ring) (i : Nat) :
    ring_setup c r i
      = if i < NB_MAX_DESC then (r i).set_cmd_and_length c.DESC_DONE else r i :=
  ring_setup_loop c NB_MAX_DESC r i

theorem ring_setup_cmd (c : Consts) (r : Ring) (i : Nat) (h : i < NB_MAX_DESC) :
    (ring_setup c r i).cmd_and_length = u32 c.DESC_DONE := by
  rw [ring_setup_apply, if_pos h]; rfl

theorem ring_setup_w2 (c : Consts) (r : Ring) (i : Nat) (h : i < NB_MAX_DESC) :
    (ring_setup c r i).w2 = u32 c.DESC_DONE :=
  ring_setup_cmd c r i h

theorem fill_descriptors_untouched (c : Consts) (pa : Nat) (r : Ring) (i : Nat) (h : 5 ≤ i) :
    fill_descriptors c pa r i = r i := by
  have h0 : i ≠ 0 := by omega
  have h1 : i ≠ 1 := by omega
  have h2 : i ≠ 2 := by omega
  have h3 : i ≠ 3 := by omega
  have h4 : i ≠ 4 := by omega
  simp [fill_descriptors, Ring.store, h0, h1, h2, h3, h4]

theorem fill_descriptors_slot0 (c : Consts) (pa : Nat) (r : Ring) :
    fill_descriptors c pa r 0 =
      { w0 := 0, w1 := 0,
        w2 := u32 (c.TCP_IP ||| c.REPORT_STATUS ||| c.DESC_CTX ||| c.TSE ||| c.PAYLOAD_LEN),
        w3 := u32 (u32i ((c.E1K_MAX_TX_PKT_SIZE : Int) - 4 - 1)) } := by
  simp [fill_descriptors, Ring.store, Desc.set_ip_config, Desc.set_tcp_config,
    Desc.set_cmd_and_length, Desc.set_tcp_seg_setup, u32_zero]

theorem fill_descriptors_slot1 (c : Consts) (pa : Nat) (r : Ring) :
    fill_descriptors c pa r 1 =
      { w0 := u64 pa % 4294967296, w1 := u64 pa / 4294967296,
        w2 := u32 (c.REPORT_STATUS ||| c.DESC_DATA ||| 0x1000 ||| c.TSE),
        w3 := 0 } := by
  simp [fill_descriptors, Ring.store, Desc.set_buffer_addr, Desc.set_lower, Desc.set_upper,
    u32_zero]

theorem fill_descriptors_slot2 (c : Consts) (pa : Nat) (r : Ring) :
    fill_descriptors c pa r 2 =
      { w0 := u64 pa % 4294967296, w1 := u64 pa / 4294967296, w2 := (r 2).w2, w3 := 0 } := by
  simp [fill_descriptors, Ring.store, Desc.set_buffer_addr, Desc.set_upper, u32_zero]

theorem fill_descriptors_slot3 (c : Consts) (pa : Nat) (r : Ring) :
    fill_descriptors c pa r 3 =
      { w0 := u64 pa % 4294967296, w1 := u64 pa / 4294967296, w2 := (r 3).w2, w3 := 0 } := by
  simp [fill_descriptors, Ring.store, Desc.set_buffer_addr, Desc.set_upper, u32_zero]

theorem fill_descriptors_slot4 (c : Consts) (pa : Nat) (r : Ring) :
    fill_descriptors c pa r 4 =
      { w0 := u64 pa % 4294967296, w1 := u64 pa / 4294967296,
        w2 := u32 (c.EOP ||| c.REPORT_STATUS ||| c.DESC_DATA ||| c.TSE),
        w3 := 0 } := by
  simp [fill_descriptors, Ring.store, Desc.set_buffer_addr, Desc.set_lower, Desc.set_upper,
    u32_zero]

/-- Running `e1k_configure` and then `send_data` when both allocations succeed. -/
theorem configure_then_send (c : Consts) (env : Env) (s : State) (r : Ring) (b : Buffer)
    (hr : env.kmalloc_ring = some r) (hb : env.kmalloc_buffer = some b) :
    send_data c env (e1k_configure c env s)
      = Run.done () (send_data_post c env (configure_post c env s r b) (ring_setup c r) b) := by
  rw [e1k_configure_eq c env s r b hr hb]
  exact send_data_eq c env _ _ _ rfl rfl

/-! ## The control file -/

theorem file_run_bounded (ops : List FileOp) :
    ∀ (n : Int) (pending : Nat),
      (n = 0 ∧ pending = 0) ∨ (n = 1 ∧ pending = 1) →
      releases_follow_opens n pending ops →
      ∀ k, file_run n (ops.take k) = 0 ∨ file_run n (ops.take k) = 1 := by
  induction ops with
  | nil =>
    intro n pending hinv _ k
    simp only [List.take_nil, file_run]
    rcases hinv with ⟨h, _⟩ | ⟨h, _⟩
    · exact Or.inl h
    · exact Or.inr h
  | cons op ops ih =>
    intro n pending hinv hv k
    cases k with
    | zero =>
      simp only [List.take_zero, file_run]
      rcases hinv with ⟨h, _⟩ | ⟨h, _⟩
      · exact Or.inl h
      · exact Or.inr h
    | succ k =>
      simp only [List.take_succ_cons, file_run]
      cases op with
      | do_open =>
        simp only [releases_follow_opens] at hv
        rcases hinv with ⟨h, hp⟩ | ⟨h, hp⟩
        · subst h; subst hp
          exact ih _ _ (Or.inr ⟨by simp [device_open], by simp [device_open]⟩) hv k
        · subst h; subst hp
          exact ih _ _ (Or.inr ⟨by simp [device_open],
            by simp [device_open, EBUSY]⟩) hv k
      | do_release =>
        simp only [releases_follow_opens] at hv
        rcases hinv with ⟨h, hp⟩ | ⟨h, hp⟩
        · subst hp; exact absurd hv.1 (by decide)
        · subst h; subst hp
          exact ih _ _ (Or.inl ⟨by simp [device_release], rfl⟩) hv.2 k

/-- C9: from the not-open state `device_open` returns 0; a second `device_open` returns
`-EBUSY` and leaves `Device_Open` unchanged; `device_release` returns 0 and puts the
counter back to 0, after which `device_open` returns 0 again.  Along every sequence of
calls in which each release follows a successful open, `Device_Open` is 0 or 1 after
every call. -/
theorem device_open_exclusive :
    (device_open 0).2 = 0
    ∧ device_open (device_open 0).1 = ((device_open 0).1, -EBUSY)
    ∧ device_release (device_open 0).1 = (0, 0)
    ∧ (device_open (device_release (device_open 0).1).1).2 = 0
    ∧ ∀ ops : List FileOp, releases_follow_opens 0 0 ops →
        ∀ k, file_run 0 (ops.take k) = 0 ∨ file_run 0 (ops.take k) = 1 := by
  refine ⟨by decide, by decide, by decide, by decide, ?_⟩
  intro ops hv k
  exact file_run_bounded ops 0 0 (Or.inl ⟨rfl, rfl⟩) hv k

/-- The sequence open, open, release, open respects the protocol and ends with the file
open once. -/
theorem device_open_exclusive_witness :
    releases_follow_opens 0 0
        [FileOp.do_open, FileOp.do_open, FileOp.do_release, FileOp.do_open]
    ∧ (file_run 0 ([FileOp.do_open, FileOp.do_open, FileOp.do_release, FileOp.do_open].take 4) = 0
       ∨ file_run 0 ([FileOp.do_open, FileOp.do_open, FileOp.do_release, FileOp.do_open].take 4) = 1) :=
  ⟨by simp [releases_follow_opens, device_open, device_release, EBUSY],
   device_open_exclusive.2.2.2.2 _
     (by simp [releases_follow_opens, device_open, device_release, EBUSY]) 4⟩

/-! ## The tail register -/

/-- C1, the claim as stated fails: with TDT reading 253, `send_data` writes 258 to TDT,
which is neither `(253 + 5) mod 256 = 2` nor below `NB_MAX_DESC`. -/
theorem send_data_tail_counterexample :
    ∃ s', send_data sample_consts sample_env (sample_state 253) = Run.done () s'
      ∧ written Reg.TDT s'.trace = [258]
      ∧ s'.regs Reg.TDT = 258
      ∧ ¬ (s'.regs Reg.TDT = (253 + 5) % 256)
      ∧ ¬ (s'.regs Reg.TDT < NB_MAX_DESC) := by
  refine ⟨_, send_data_eq sample_consts sample_env (sample_state 253) sample_ring
    sample_buffer rfl rfl, ?_, ?_, ?_, ?_⟩ <;> decide

/-- C1, amended: with ring and buffer allocated and TDT reading `t < 256`, `send_data`
returns and writes `(t + 5) mod 0x10000` to TDT (line 197 masks with `0xFFFF`), which is
`t + 5`; the tail written is below `NB_MAX_DESC = 256` exactly when `t ≤ 250`. -/
theorem send_data_tail (c : Consts) (env : Env) (s : State) (r : Ring) (b : Buffer) (t : Nat)
    (hr : s.tx_ring = some r) (hb : s.tx_buffer = some b)
    (ht : s.regs Reg.TDT = t) (hlt : t < NB_MAX_DESC) :
    ∃ s', send_data c env s = Run.done () s'
      ∧ s'.regs Reg.TDT = (t + 5) % 65536
      ∧ s'.trace = s.trace ++ [Event.enter Func.send_data, Event.read Reg.TDT,
          Event.write Reg.TDT ((t + 5) % 65536)]
      ∧ (t + 5) % 65536 = t + 5
      ∧ (s'.regs Reg.TDT < NB_MAX_DESC ↔ t ≤ 250) := by
  have h5 : (u32 t + 5) % 65536 = (t + 5) % 65536 := by
    unfold NB_MAX_DESC at hlt; unfold u32; omega
  have h6 : (t + 5) % 65536 = t + 5 := by
    unfold NB_MAX_DESC at hlt; omega
  have hreg : (send_data_post c env s r b).regs Reg.TDT = (t + 5) % 65536 := by
    simp [send_data_post, ht, h5]
  refine ⟨_, send_data_eq c env s r b hr hb, hreg, ?_, h6, ?_⟩
  · simp [send_data_post, ht, h5]
  · rw [hreg, h6]; unfold NB_MAX_DESC; omega

/-- At `t = 0` the tail written is 5, at `t = 250` it is 255. -/
theorem send_data_tail_witness :
    (∃ s', send_data sample_consts sample_env (sample_state 0) = Run.done () s'
      ∧ s'.regs Reg.TDT = 5)
    ∧ (∃ s', send_data sample_consts sample_env (sample_state 250) = Run.done () s'
      ∧ s'.regs Reg.TDT = 255) := by
  obtain ⟨s0, h0, h1, _⟩ := send_data_tail sample_consts sample_env (sample_state 0)
    sample_ring sample_buffer 0 rfl rfl rfl (by decide)
  obtain ⟨s1, k0, k1, _⟩ := send_data_tail sample_consts sample_env (sample_state 250)
    sample_ring sample_buffer 250 rfl rfl rfl (by decide)
  exact ⟨⟨s0, h0, h1⟩, ⟨s1, k0, k1⟩⟩

/-! ## Failure of the mapping -/

/-- C3: when `map_mmio` returns `NULL`, `init_module` returns a negative code (`-1` once
the character device is registered), the registers are untouched, and the trace gains no
register read, no register write and no entry of `e1k_configure` or `send_data`. -/
theorem init_module_map_failure (c : Consts) (env : Env) (s : State)
    (h : (map_mmio env s).1 = 0) :
    ∃ ret s', init_module c env s = Run.done ret s'
      ∧ ret < 0
      ∧ (0 ≤ env.register_chrdev → ret = -1)
      ∧ s'.regs = s.regs
      ∧ s'.tx_ring = s.tx_ring ∧ s'.tx_buffer = s.tx_buffer
      ∧ (s'.trace = s.trace ∨ s'.trace = s.trace ++ [Event.enter Func.map_mmio]) := by
  have h0 : env.ioremap = 0 := by
    unfold map_mmio at h
    by_cases hz : env.ioremap = 0
    · exact hz
    · simp [hz] at h
  by_cases hreg : env.register_chrdev < 0
  · refine ⟨env.register_chrdev, s, ?_, hreg, ?_, rfl, rfl, rfl, Or.inl rfl⟩
    · simp [init_module, hreg]
    · intro h1; omega
  · refine ⟨-1, { s.enter Func.map_mmio with bar0 := 0 }, ?_, by decide, ?_, rfl, rfl, rfl,
      Or.inr rfl⟩
    · simp [init_module, hreg, map_mmio, h0]
    · intro _; rfl

/-- With the window unmappable, `init_module` from the boot state returns `-1` having
only entered `map_mmio`. -/
theorem init_module_map_failure_witness :
    ∃ ret s', init_module sample_consts no_mmio_env (State.boot (fun _ => 0)) = Run.done ret s'
      ∧ ret < 0
      ∧ (0 ≤ no_mmio_env.register_chrdev → ret = -1)
      ∧ s'.regs = (State.boot (fun _ => 0)).regs
      ∧ s'.tx_ring = (State.boot (fun _ => 0)).tx_ring
      ∧ s'.tx_buffer = (State.boot (fun _ => 0)).tx_buffer
      ∧ (s'.trace = (State.boot (fun _ => 0)).trace
          ∨ s'.trace = (State.boot (fun _ => 0)).trace ++ [Event.enter Func.map_mmio]) :=
  init_module_map_failure sample_consts no_mmio_env (State.boot (fun _ => 0)) rfl

/-! ## The ring base address -/

/-- C4: when configuration succeeds with ring bus address `a < 2^64`, `e1k_configure`
writes TDBAL once, with `a mod 2^32`, and TDBAH once, with `a / 2^32`; both values are
below `2^32`, they are the final contents of the two registers, and
`(high <<< 32) ||| low = a`. -/
theorem tdba_split (c : Consts) (env : Env) (s : State) (r : Ring) (b : Buffer) (a : Nat)
    (hr : env.kmalloc_ring = some r) (hb : env.kmalloc_buffer = some b)
    (ha : env.ring_phys = a) (h64 : a < 18446744073709551616) (ht : s.trace = []) :
    written Reg.TDBAL (e1k_configure c env s).trace = [a % 4294967296]
    ∧ written Reg.TDBAH (e1k_configure c env s).trace = [a / 4294967296]
    ∧ (e1k_configure c env s).regs Reg.TDBAL = a % 4294967296
    ∧ (e1k_configure c env s).regs Reg.TDBAH = a / 4294967296
    ∧ a % 4294967296 < 4294967296
    ∧ a / 4294967296 < 4294967296
    ∧ ((a / 4294967296) <<< 32) ||| (a % 4294967296) = a := by
  have hu : u64 a = a := by unfold u64; omega
  rw [e1k_configure_eq c env s r b hr hb]
  refine ⟨?_, ?_, ?_, ?_, by omega, by omega, ?_⟩
  · simp [configure_post, ctrl_events, written, ht, ha, hu]
  · simp [configure_post, ctrl_events, written, ht, ha, hu]
  · simp [configure_post, ha, hu]
  · simp [configure_post, ha, hu]
  · have hlow : a % 4294967296 < 2 ^ 32 := by omega
    rw [Nat.shiftLeft_eq, Nat.mul_comm, ← Nat.mul_add_lt_is_or hlow]
    omega

/-- The bus address `0x0000000012345678` is written as TDBAL = `0x12345678`, TDBAH = `0`. -/
theorem tdba_split_witness :
    written Reg.TDBAL (e1k_configure sample_consts sample_env (State.boot (fun _ => 0))).trace
        = [0x12345678]
    ∧ written Reg.TDBAH (e1k_configure sample_consts sample_env (State.boot (fun _ => 0))).trace
        = [0]
    ∧ (e1k_configure sample_consts sample_env (State.boot (fun _ => 0))).regs Reg.TDBAL
        = 0x12345678
    ∧ (e1k_configure sample_consts sample_env (State.boot (fun _ => 0))).regs Reg.TDBAH = 0
    ∧ ((0 : Nat) <<< 32) ||| 0x12345678 = 0x12345678 := by
  have h := tdba_split sample_consts sample_env (State.boot (fun _ => 0)) sample_ring
    sample_buffer 0x12345678 rfl rfl rfl (by norm_num) rfl
  exact ⟨h.1, h.2.1, h.2.2.1, h.2.2.2.1, h.2.2.2.2.2.2⟩

/-! ## The transmit-control register -/

theorem tctl_value_and (c : Consts) (v m : Nat) :
    tctl_value c v &&& m
      = u32 ((u32 v &&& m) ||| (c.TCTL_EN &&& m) ||| (c.TCTL_PSP &&& m)
          ||| ((0x40 <<< 12 &&& TCTL_COLD) &&& m) ||| ((0x10 <<< 8 &&& TCTL_CT) &&& m)
          ||| (c.TCTL_RTLC &&& m)) := by
  unfold tctl_value
  rw [u32_and]
  simp only [or_and_right]

theorem tctl_value_carries (c : Consts) (v : Nat) (hEN : c.TCTL_EN < 4294967296)
    (hPSP : c.TCTL_PSP < 4294967296) (hRTLC : c.TCTL_RTLC < 4294967296) :
    carries (tctl_value c v) (u32 v) ∧ carries (tctl_value c v) c.TCTL_EN
      ∧ carries (tctl_value c v) c.TCTL_PSP ∧ carries (tctl_value c v) c.TCTL_RTLC := by
  unfold tctl_value
  refine ⟨carries_u32 (u32_lt v) ?_, carries_u32 hEN ?_, carries_u32 hPSP ?_,
    carries_u32 hRTLC ?_⟩
  · exact carries_or_left _ (carries_or_left _ (carries_or_left _ (carries_or_left _
      (carries_or_left _ (carries_self _)))))
  · exact carries_or_left _ (carries_or_left _ (carries_or_left _ (carries_or_left _
      (carries_or_right _ (carries_self _)))))
  · exact carries_or_left _ (carries_or_left _ (carries_or_left _
      (carries_or_right _ (carries_self _))))
  · exact carries_or_right _ (carries_self _)

/-- C8, the claim as stated fails: starting from TCTL = 0 (collision fields zero) with
both allocations succeeding, the collision-threshold field of TCTL ends as `0x10`, not
`0x40`, and the collision-distance field ends as `0x41`, not `0x10`. -/
theorem tctl_fields_counterexample :
    (State.boot (fun _ => 0)).regs Reg.TCTL &&& TCTL_CT = 0
    ∧ (State.boot (fun _ => 0)).regs Reg.TCTL &&& TCTL_COLD = 0
    ∧ sample_env.kmalloc_ring.isSome = true ∧ sample_env.kmalloc_buffer.isSome = true
    ∧ tctl_ct ((e1k_configure sample_consts sample_env (State.boot (fun _ => 0))).regs
          Reg.TCTL) = 0x10
    ∧ ¬ (tctl_ct ((e1k_configure sample_consts sample_env (State.boot (fun _ => 0))).regs
          Reg.TCTL) = 0x40)
    ∧ tctl_cold ((e1k_configure sample_consts sample_env (State.boot (fun _ => 0))).regs
          Reg.TCTL) = 0x41
    ∧ ¬ (tctl_cold ((e1k_configure sample_consts sample_env (State.boot (fun _ => 0))).regs
          Reg.TCTL) = 0x10) := by
  rw [e1k_configure_eq sample_consts sample_env _ sample_ring sample_buffer rfl rfl]
  refine ⟨by decide, by decide, rfl, rfl, ?_, ?_, ?_, ?_⟩ <;>
    (simp only [configure_post, if_true]; decide)

/-- C8, amended: after a successful `e1k_configure` starting from a TCTL value whose
collision fields are zero, with flag constants that are 32-bit and lie outside the two
collision fields, TCTL keeps every bit that was set, has transmit-enable,
pad-short-packets and retransmit-on-late-collision set, holds `0x10` in the
collision-threshold field (`TCTL_CT`) and holds `0x40` in the bits of the
collision-distance field (`TCTL_COLD`) that lie above the threshold field (bits 4..9 of
the distance field; its bits 0..3 are bits 4..7 of the threshold field). -/
theorem tctl_programmed (c : Consts) (env : Env) (s : State) (r : Ring) (b : Buffer)
    (hr : env.kmalloc_ring = some r) (hb : env.kmalloc_buffer = some b)
    (hct : u32 (s.regs Reg.TCTL) &&& TCTL_CT = 0)
    (hcold : u32 (s.regs Reg.TCTL) &&& TCTL_COLD = 0)
    (hEN : c.TCTL_EN < 4294967296) (hPSP : c.TCTL_PSP < 4294967296)
    (hRTLC : c.TCTL_RTLC < 4294967296)
    (hEN1 : c.TCTL_EN &&& TCTL_CT = 0) (hEN2 : c.TCTL_EN &&& TCTL_COLD = 0)
    (hPSP1 : c.TCTL_PSP &&& TCTL_CT = 0) (hPSP2 : c.TCTL_PSP &&& TCTL_COLD = 0)
    (hRTLC1 : c.TCTL_RTLC &&& TCTL_CT = 0) (hRTLC2 : c.TCTL_RTLC &&& TCTL_COLD = 0) :
    carries ((e1k_configure c env s).regs Reg.TCTL) (u32 (s.regs Reg.TCTL))
    ∧ carries ((e1k_configure c env s).regs Reg.TCTL) c.TCTL_EN
    ∧ carries ((e1k_configure c env s).regs Reg.TCTL) c.TCTL_PSP
    ∧ carries ((e1k_configure c env s).regs Reg.TCTL) c.TCTL_RTLC
    ∧ tctl_ct ((e1k_configure c env s).regs Reg.TCTL) = 0x10
    ∧ tctl_cold ((e1k_configure c env s).regs Reg.TCTL) &&& 0x3F0 = 0x40 := by
  have hreg : (e1k_configure c env s).regs Reg.TCTL = tctl_value c (s.regs Reg.TCTL) := by
    rw [e1k_configure_eq c env s r b hr hb]; simp [configure_post]
  rw [hreg]
  obtain ⟨k1, k2, k3, k4⟩ := tctl_value_carries c (s.regs Reg.TCTL) hEN hPSP hRTLC
  refine ⟨k1, k2, k3, k4, ?_, ?_⟩
  · unfold tctl_ct
    rw [tctl_value_and, hct, hEN1, hPSP1, hRTLC1]
    decide
  · unfold tctl_cold
    rw [tctl_value_and, hcold, hEN2, hPSP2, hRTLC2]
    decide

/-- With the sample constants and TCTL initially 0, TCTL ends with threshold `0x10` and
with `0x40` in the upper bits of the distance field. -/
theorem tctl_programmed_witness :
    tctl_ct ((e1k_configure sample_consts sample_env (State.boot (fun _ => 0))).regs Reg.TCTL)
        = 0x10
    ∧ tctl_cold ((e1k_configure sample_consts sample_env (State.boot (fun _ => 0))).regs
        Reg.TCTL) &&& 0x3F0 = 0x40
    ∧ carries ((e1k_configure sample_consts sample_env (State.boot (fun _ => 0))).regs Reg.TCTL)
        sample_consts.TCTL_EN := by
  have h := tctl_programmed sample_consts sample_env (State.boot (fun _ => 0)) sample_ring
    sample_buffer rfl rfl (by decide) (by decide) (by decide) (by decide) (by decide)
    (by decide) (by decide) (by decide) (by decide) (by decide) (by decide)
  exact ⟨h.2.2.2.2.1, h.2.2.2.2.2, h.2.1⟩

/-! ## Failure of an allocation -/

theorem configure_abort_of_failure (c : Consts) (env : Env) (s : State)
    (hfail : env.kmalloc_ring = none ∨ env.kmalloc_buffer = none) :
    ∃ ring buf, e1k_configure c env s = configure_abort c s ring buf
      ∧ (buf = none ∨ buf = s.tx_buffer) := by
  cases hring : env.kmalloc_ring with
  | none =>
    exact ⟨none, s.tx_buffer, e1k_configure_no_ring c env s hring, Or.inr rfl⟩
  | some r =>
    have hb : env.kmalloc_buffer = none := by
      rcases hfail with h | h
      · rw [hring] at h; cases h
      · exact h
    exact ⟨some (ring_setup c r), none, e1k_configure_no_buffer c env s r hring hb, Or.inl rfl⟩

theorem send_data_enters (c : Consts) (env : Env) (s : State) :
    Event.enter Func.send_data ∈ (send_data c env s).state.trace := by
  unfold send_data fill_payload
  by_cases hp : c.PAYLOAD_LEN = 0
  · cases hr : s.tx_ring <;>
      simp [hp, hr, State.enter, Run.state, get_register, set_register]
  · cases hb : s.tx_buffer <;> cases hr : s.tx_ring <;>
      simp [hp, hr, hb, State.enter, Run.state, get_register, set_register]

theorem send_data_null_buffer (c : Consts) (env : Env) (s : State)
    (hb : s.tx_buffer = none) (hp : c.PAYLOAD_LEN ≠ 0) :
    send_data c env s = Run.oops (s.enter Func.send_data) := by
  simp [send_data, fill_payload, hp, hb, State.enter]

theorem init_module_mapped (c : Consts) (env : Env) (s : State)
    (hreg : 0 ≤ env.register_chrdev) (hmap : env.ioremap ≠ 0) :
    init_module c env s =
      match send_data c env
          (e1k_configure c env { s.enter Func.map_mmio with bar0 := env.ioremap }) with
      | Run.oops s => Run.oops s
      | Run.done _ s => Run.done 0 s := by
  have hneg : ¬ env.register_chrdev < 0 := by omega
  simp [init_module, hneg, map_mmio, hmap]

theorem init_module_state (c : Consts) (env : Env) (s : State)
    (hreg : 0 ≤ env.register_chrdev) (hmap : env.ioremap ≠ 0) :
    (init_module c env s).state =
      (send_data c env
          (e1k_configure c env { s.enter Func.map_mmio with bar0 := env.ioremap })).state := by
  rw [init_module_mapped c env s hreg hmap]
  cases send_data c env (e1k_configure c env { s.enter Func.map_mmio with bar0 := env.ioremap })
    <;> rfl

/-- C2: when the character device is registered, the window is mapped and the ring or
the payload-buffer allocation fails, `e1k_configure` only touches CTRL (it writes none of
TDBAL, TDBAH, TDLEN, TDT, TDH, TCTL, whose contents stay as they were), but `init_module`
still enters `send_data`; with a non-empty payload the first payload store then goes
through the `NULL` buffer and the run ends there, so `init_module` returns nothing. -/
theorem init_module_alloc_failure (c : Consts) (env : Env) (regs : Reg → Nat)
    (hreg : 0 ≤ env.register_chrdev) (hmap : env.ioremap ≠ 0)
    (hfail : env.kmalloc_ring = none ∨ env.kmalloc_buffer = none) :
    (∀ s : State, (e1k_configure c env s).trace = s.trace ++ ctrl_events c s
        ∧ ∀ q, q ≠ Reg.CTRL → (e1k_configure c env s).regs q = s.regs q
            ∧ written q (ctrl_events c s) = [])
    ∧ Event.enter Func.send_data ∈ (init_module c env (State.boot regs)).state.trace
    ∧ (c.PAYLOAD_LEN ≠ 0 →
        ∃ s', init_module c env (State.boot regs) = Run.oops s'
          ∧ s'.trace = [Event.enter Func.map_mmio]
              ++ ctrl_events c (State.boot regs) ++ [Event.enter Func.send_data]) := by
  refine ⟨?_, ?_, ?_⟩
  · intro s
    obtain ⟨ring, buf, hcfg, _⟩ := configure_abort_of_failure c env s hfail
    rw [hcfg]
    refine ⟨rfl, ?_⟩
    intro q hq
    refine ⟨by simp [configure_abort, hq], ?_⟩
    cases q <;> simp [ctrl_events, written] at hq ⊢
  · rw [init_module_state c env _ hreg hmap]
    exact send_data_enters c env _
  · intro hp
    obtain ⟨ring, buf, hcfg, hbuf⟩ := configure_abort_of_failure c env
      { (State.boot regs).enter Func.map_mmio with bar0 := env.ioremap } hfail
    have hnone : buf = none := by
      rcases hbuf with h | h
      · exact h
      · exact h
    rw [init_module_mapped c env _ hreg hmap, hcfg,
      send_data_null_buffer c env _ (by simp [configure_abort, hnone]) hp]
    exact ⟨_, rfl, by simp [configure_abort, State.enter, State.boot, ctrl_events]⟩

/-- With the buffer allocation failing (sample constants, payload of 16 bytes),
`init_module` enters `send_data` and stops at the first payload store. -/
theorem init_module_alloc_failure_witness :
    Event.enter Func.send_data
        ∈ (init_module sample_consts no_buffer_env (State.boot (fun _ => 0))).state.trace
    ∧ ∃ s', init_module sample_consts no_buffer_env (State.boot (fun _ => 0)) = Run.oops s'
        ∧ s'.trace = [Event.enter Func.map_mmio]
            ++ ctrl_events sample_consts (State.boot (fun _ => 0))
            ++ [Event.enter Func.send_data] := by
  have h := init_module_alloc_failure sample_consts no_buffer_env (fun _ => 0)
    (by decide) (by decide) (Or.inr rfl)
  exact ⟨h.2.1, h.2.2 (by decide)⟩

/-! ## The descriptors of the submitted frame -/

/-- C6: with both allocations succeeding, after `e1k_configure` every slot below
`NB_MAX_DESC` has the command/length word `DESC_DONE`; after the following `send_data`
the slots 5..255 still hold exactly `DESC_DONE`, and so do slots 2 and 3, although they are
among the slots filled by submission: no store of `send_data` reaches their command
word. -/
theorem done_sentinel (c : Consts) (env : Env) (s : State) (r : Ring) (b : Buffer)
    (hr : env.kmalloc_ring = some r) (hb : env.kmalloc_buffer = some b) :
    (∃ ring0, (e1k_configure c env s).tx_ring = some ring0
        ∧ ∀ i, i < NB_MAX_DESC → (ring0 i).cmd_and_length = u32 c.DESC_DONE)
    ∧ ∃ s' ring, send_data c env (e1k_configure c env s) = Run.done () s'
        ∧ s'.tx_ring = some ring
        ∧ (∀ i, 5 ≤ i → i < NB_MAX_DESC → (ring i).cmd_and_length = u32 c.DESC_DONE)
        ∧ (ring 2).cmd_and_length = u32 c.DESC_DONE
        ∧ (ring 3).cmd_and_length = u32 c.DESC_DONE := by
  refine ⟨⟨ring_setup c r, ?_, fun i hi => ring_setup_cmd c r i hi⟩,
    _, _, configure_then_send c env s r b hr hb, rfl, ?_, ?_, ?_⟩
  · rw [e1k_configure_eq c env s r b hr hb]; rfl
  · intro i h5 hi
    rw [fill_descriptors_untouched c _ _ i h5]
    exact ring_setup_cmd c r i hi
  · rw [fill_descriptors_slot2]
    simp only [Desc.cmd_and_length, Desc.lower, ring_setup_w2 c r 2 (by decide)]
  · rw [fill_descriptors_slot3]
    simp only [Desc.cmd_and_length, Desc.lower, ring_setup_w2 c r 3 (by decide)]

/-- With the sample constants (`DESC_DONE = 1`), slot 2 and slot 3 still read `DESC_DONE`
after submission. -/
theorem done_sentinel_witness :
    ∃ s' ring,
      send_data sample_consts sample_env
          (e1k_configure sample_consts sample_env (State.boot (fun _ => 0))) = Run.done () s'
      ∧ s'.tx_ring = some ring
      ∧ (∀ i, 5 ≤ i → i < NB_MAX_DESC → (ring i).cmd_and_length = 1)
      ∧ (ring 2).cmd_and_length = 1
      ∧ (ring 3).cmd_and_length = 1 :=
  (done_sentinel sample_consts sample_env (State.boot (fun _ => 0)) sample_ring
    sample_buffer rfl rfl).2

/-- C7: with both allocations succeeding and 32-bit flag constants, after
`e1k_configure` and `send_data` TDT is 5, TDH is 0, slot 0 carries `DESC_CTX`, slots 1 and
4 carry `REPORT_STATUS`, `DESC_DATA` and `TSE`, slots 1..4 all hold the buffer bus address,
but the lower words of slots 2 and 3 are still `DESC_DONE`: the flags were stored through
`data_2` (lines 186 and 190), not through `data_3` and `data_4`. -/
theorem submitted_frame (c : Consts) (env : Env) (s : State) (r : Ring) (b : Buffer)
    (hr : env.kmalloc_ring = some r) (hb : env.kmalloc_buffer = some b)
    (hRS : c.REPORT_STATUS < 4294967296) (hDATA : c.DESC_DATA < 4294967296)
    (hTSE : c.TSE < 4294967296) (hCTX : c.DESC_CTX < 4294967296) :
    ∃ s' ring, send_data c env (e1k_configure c env s) = Run.done () s'
      ∧ s'.tx_ring = some ring
      ∧ s'.regs Reg.TDT = 5
      ∧ s'.regs Reg.TDH = 0
      ∧ carries (ring 0).cmd_and_length c.DESC_CTX
      ∧ (carries (ring 1).lower c.REPORT_STATUS ∧ carries (ring 1).lower c.DESC_DATA
          ∧ carries (ring 1).lower c.TSE)
      ∧ (carries (ring 4).lower c.REPORT_STATUS ∧ carries (ring 4).lower c.DESC_DATA
          ∧ carries (ring 4).lower c.TSE)
      ∧ (∀ i, 1 ≤ i → i ≤ 4 → (ring i).buffer_addr = u64 env.buffer_phys)
      ∧ (ring 2).lower = u32 c.DESC_DONE
      ∧ (ring 3).lower = u32 c.DESC_DONE := by
  have haddr : ∀ w2 w3 : Nat, Desc.buffer_addr
      { w0 := u64 (u64 env.buffer_phys) % 4294967296,
        w1 := u64 (u64 env.buffer_phys) / 4294967296, w2 := w2, w3 := w3 }
        = u64 env.buffer_phys := by
    intro w2 w3
    simp only [Desc.buffer_addr, u64]; omega
  refine ⟨_, _, configure_then_send c env s r b hr hb, rfl, ?_, ?_, ?_, ⟨?_, ?_, ?_⟩,
    ⟨?_, ?_, ?_⟩, ?_, ?_, ?_⟩
  · simp [send_data_post, configure_post, u32_zero]
  · simp [send_data_post, configure_post]
  · rw [fill_descriptors_slot0]
    exact carries_u32 hCTX
      (carries_or_left _ (carries_or_left _ (carries_or_right _ (carries_self _))))
  · rw [fill_descriptors_slot1]
    exact carries_u32 hRS
      (carries_or_left _ (carries_or_left _ (carries_or_left _ (carries_self _))))
  · rw [fill_descriptors_slot1]
    exact carries_u32 hDATA
      (carries_or_left _ (carries_or_left _ (carries_or_right _ (carries_self _))))
  · rw [fill_descriptors_slot1]
    exact carries_u32 hTSE (carries_or_right _ (carries_self _))
  · rw [fill_descriptors_slot4]
    exact carries_u32 hRS
      (carries_or_left _ (carries_or_left _ (carries_or_right _ (carries_self _))))
  · rw [fill_descriptors_slot4]
    exact carries_u32 hDATA (carries_or_left _ (carries_or_right _ (carries_self _)))
  · rw [fill_descriptors_slot4]
    exact carries_u32 hTSE (carries_or_right _ (carries_self _))
  · intro i h1 h4
    have hcases : i = 1 ∨ i = 2 ∨ i = 3 ∨ i = 4 := by omega
    rcases hcases with h | h | h | h <;> subst h
    · rw [fill_descriptors_slot1]; exact haddr _ _
    · rw [fill_descriptors_slot2]; exact haddr _ _
    · rw [fill_descriptors_slot3]; exact haddr _ _
    · rw [fill_descriptors_slot4]; exact haddr _ _
  · rw [fill_descriptors_slot2]
    simp only [Desc.cmd_and_length, Desc.lower, ring_setup_w2 c r 2 (by decide)]
  · rw [fill_descriptors_slot3]
    simp only [Desc.cmd_and_length, Desc.lower, ring_setup_w2 c r 3 (by decide)]

/-- With the sample constants, slots 2 and 3 end with the lower word `DESC_DONE = 1`,
which carries none of `REPORT_STATUS`, `DESC_DATA`, `TSE`. -/
theorem submitted_frame_witness :
    (∃ s' ring,
      send_data sample_consts sample_env
          (e1k_configure sample_consts sample_env (State.boot (fun _ => 0))) = Run.done () s'
      ∧ s'.tx_ring = some ring
      ∧ s'.regs Reg.TDT = 5
      ∧ s'.regs Reg.TDH = 0
      ∧ (ring 2).lower = 1
      ∧ (ring 3).lower = 1)
    ∧ ¬ carries 1 sample_consts.REPORT_STATUS
    ∧ ¬ carries 1 sample_consts.DESC_DATA
    ∧ ¬ carries 1 sample_consts.TSE := by
  obtain ⟨s', ring, h1, h2, h3, h4, _, _, _, _, h5, h6⟩ :=
    submitted_frame sample_consts sample_env (State.boot (fun _ => 0)) sample_ring
      sample_buffer rfl rfl (by decide) (by decide) (by decide) (by decide)
  exact ⟨⟨s', ring, h1, h2, h3, h4, h5, h6⟩, by decide, by decide, by decide⟩

theorem send_data_ring (c : Consts) (env : Env) (s : State) (r : Ring)
    (hr : s.tx_ring = some r) :
    (send_data c env s).state.tx_ring = some r
    ∨ (send_data c env s).state.tx_ring = some (fill_descriptors c (u64 env.buffer_phys) r) := by
  unfold send_data fill_payload
  by_cases hp : c.PAYLOAD_LEN = 0
  · simp [hp, hr, State.enter, Run.state, get_register, set_register]
  · cases hb : s.tx_buffer <;>
      simp [hp, hr, hb, State.enter, Run.state, get_register, set_register]

/-- C10: for every pre-state with the ring allocated, whatever state `send_data` ends in,
the lower command/length words of slots 2 and 3 (the descriptors behind `data_3` and
`data_4`) are what they were before the call, which is `DESC_DONE` when the ring comes from
the set-up loop of `e1k_configure`.  When the buffer is allocated too, `send_data` returns
and the lower word of slot 1 (behind `data_2`) is
`(uint32_t)(REPORT_STATUS | DESC_DATA | 0x1000 | TSE)`, the last value assigned to it,
which is the plain value when the three constants are 32-bit. -/
theorem send_data_lower_words (c : Consts) (env : Env) (s : State) (r : Ring)
    (hr : s.tx_ring = some r) :
    (∃ ring, (send_data c env s).state.tx_ring = some ring
      ∧ (ring 2).lower = (r 2).lower
      ∧ (ring 3).lower = (r 3).lower
      ∧ (∀ r0, r = ring_setup c r0 →
          (ring 2).lower = u32 c.DESC_DONE ∧ (ring 3).lower = u32 c.DESC_DONE))
    ∧ (∀ b, s.tx_buffer = some b →
        ∃ s' ring, send_data c env s = Run.done () s'
          ∧ s'.tx_ring = some ring
          ∧ (ring 1).lower = u32 (c.REPORT_STATUS ||| c.DESC_DATA ||| 0x1000 ||| c.TSE)
          ∧ (c.REPORT_STATUS < 4294967296 → c.DESC_DATA < 4294967296 → c.TSE < 4294967296 →
              (ring 1).lower = c.REPORT_STATUS ||| c.DESC_DATA ||| 0x1000 ||| c.TSE)) := by
  constructor
  · have h2 : (fill_descriptors c (u64 env.buffer_phys) r 2).lower = (r 2).lower := by
      rw [fill_descriptors_slot2]; rfl
    have h3 : (fill_descriptors c (u64 env.buffer_phys) r 3).lower = (r 3).lower := by
      rw [fill_descriptors_slot3]; rfl
    have key : ∀ ring : Ring, (ring 2).lower = (r 2).lower → (ring 3).lower = (r 3).lower →
        ∀ r0, r = ring_setup c r0 →
          (ring 2).lower = u32 c.DESC_DONE ∧ (ring 3).lower = u32 c.DESC_DONE := by
      intro ring k2 k3 r0 hr0
      rw [k2, k3, hr0]
      simp only [Desc.lower, ring_setup_w2 c r0 2 (by decide), ring_setup_w2 c r0 3 (by decide),
        and_self]
    rcases send_data_ring c env s r hr with h | h
    · exact ⟨r, h, rfl, rfl, key r rfl rfl⟩
    · exact ⟨_, h, h2, h3, key _ h2 h3⟩
  · intro b hb
    refine ⟨_, _, send_data_eq c env s r b hr hb, rfl, ?_, ?_⟩
    · rw [fill_descriptors_slot1]; rfl
    · intro h1 h2 h3
      rw [fill_descriptors_slot1]
      have hk : (0x1000 : Nat) < 2 ^ 32 := by norm_num
      have h1' : c.REPORT_STATUS < 2 ^ 32 := h1
      have h2' : c.DESC_DATA < 2 ^ 32 := h2
      have h3' : c.TSE < 2 ^ 32 := h3
      exact u32_of_lt
        (Nat.or_lt_two_pow (Nat.or_lt_two_pow (Nat.or_lt_two_pow h1' h2') hk) h3')

/-- From a ring whose every word is `0xDEADBEEF`, `send_data` leaves `0xDEADBEEF` in the
lower words of slots 2 and 3 and puts `0x2C101000` in the lower word of slot 1. -/
theorem send_data_lower_words_witness :
    (∃ ring, (send_data sample_consts sample_env (sample_state 0)).state.tx_ring = some ring
      ∧ (ring 2).lower = 0xDEADBEEF
      ∧ (ring 3).lower = 0xDEADBEEF)
    ∧ ∃ s' ring, send_data sample_consts sample_env (sample_state 0) = Run.done () s'
      ∧ s'.tx_ring = some ring
      ∧ (ring 1).lower = 0x2C101000 := by
  obtain ⟨⟨ring, h1, h2, h3, _⟩, hB⟩ :=
    send_data_lower_words sample_consts sample_env (sample_state 0) sample_ring rfl
  obtain ⟨s', ring', k1, k2, k3, _⟩ := hB sample_buffer rfl
  exact ⟨⟨ring, h1, h2, h3⟩, s', ring', k1, k2, by rw [k3]; decide⟩

end E1000
